import Mathlib

/-! Crash reporting pipeline of `src/openrct2/platform/Crash.cpp`

A shallow embedding of `UploadMinidump` and `OnCrash`.

Modelling conventions.

* Text (`wchar_t*`, `std::wstring`, `std::string`, `utf8*`) is a `String`, one
  `Char` per `wchar_t`; the conversions between the UTF-8 and UTF-16 encodings
  are the identity on text.
* `swprintf_s` writes into a fixed array: a result that does not fit the
  element count it was given enters the invalid-parameter handler of the C
  runtime, which does not come back to `OnCrash`; a result that fits the count
  but not the array (the file names are formatted into `wchar_t[MAX_PATH]` with
  `sizeof`, twice the number of elements, as the count) runs over the array.
  Both end the run (`Fault`), with the calls made so far.
* `_wfopen` may return a null stream; `fclose` on a null stream enters the same
  invalid-parameter handler and ends the run.
* `std::map<std::wstring, std::wstring>` is an association list kept in
  ascending key order, with `operator[]` assignment as `mapAssign`.
* Every call that leaves `OnCrash` (console, message box, file system, save
  export, configuration, screenshot, network, shell) is recorded, in program
  order, as an `Event`; what each such call answers is read from a `World`.
  The save export fails by throwing a `std::exception`, the only kind the
  handler catches.
* The body of `OnCrash` is cut into blocks along its own comments
  (`getFilenames`, `compressDump`, `renameDump`, `logInformation`,
  `exportSave`, `compressSave`, `saveConfig`, `dumpScreenshot`, then
  `askAndUpload` and `revealFiles`), each a function on the locals that the
  block reads and writes.
-/

namespace Crash

set_option maxRecDepth 100000

/-- An ordered string-to-string map (`std::map<std::wstring, std::wstring>`). -/
abbrev WMap := List (String × String)

/-- Lexicographic order on character sequences (the order of `wmemcmp`, then
length). -/
def wcsLess : List Char → List Char → Bool
  | [], [] => false
  | [], _ :: _ => true
  | _ :: _, [] => false
  | a :: as, c :: cs =>
    if a.toNat < c.toNat then true
    else if c.toNat < a.toNat then false
    else wcsLess as cs

/-- The key order of the map, `std::less<std::wstring>`. -/
def wstringLess (a c : String) : Bool := wcsLess a.data c.data

/-- The assignment `m[k] = v` of `std::map`: replaces the value of an existing
key, otherwise inserts the entry at its place in ascending key order. -/
def mapAssign : WMap → String → String → WMap
  | [], k, v => [(k, v)]
  | (k', v') :: rest, k, v =>
    if k = k' then (k, v) :: rest
    else if wstringLess k k' then (k, v) :: (k', v') :: rest
    else (k', v') :: mapAssign rest k v

/-- The keys of a map, in iteration order. -/
def mapKeys (m : WMap) : List String := m.map Prod.fst

/-- Look a key up (`std::map::find`). -/
def mapFind (m : WMap) (k : String) : Option String := m.lookup k

/-- Build constants and process-wide flags read by the crash handler. -/
structure Build where
  /-- The constant `OPENRCT2_NAME`. -/
  OPENRCT2_NAME : String
  /-- The constant `OPENRCT2_VERSION`. -/
  OPENRCT2_VERSION : String
  /-- The global `_wszCommitSha1Short`, empty for releases. -/
  wszCommitSha1Short : String
  /-- The global `_wszArchitecture`. -/
  wszArchitecture : String
  /-- The global `gVersionInfoFull`. -/
  gVersionInfoFull : String
  /-- The global `gOpenRCT2SilentBreakpad`. -/
  gOpenRCT2SilentBreakpad : Bool
  deriving DecidableEq

/-- What the outside world answers to each call made by the handler. -/
structure World where
  /-- Whether `_wfopen(dumpFilePath, L"rb")` returns a stream. -/
  dumpInputOpens : Bool
  /-- Whether `_wfopen(dumpFilePathGZIP, L"wb")` returns a stream. -/
  dumpDestOpens : Bool
  /-- Result of `util_gzip_compress` on the dump. -/
  gzipDump : Bool
  /-- Whether `_wrename` returned `0`. -/
  renameOk : Bool
  /-- Whether `S6Exporter::Export` throws a `std::exception`. -/
  exportThrows : Bool
  /-- Whether `S6Exporter::SaveGame` throws a `std::exception`. -/
  saveGameThrows : Bool
  /-- Whether `_wfopen(saveFilePath, L"rb")` returns a stream. -/
  saveInputOpens : Bool
  /-- Whether `_wfopen(saveFilePathGZIP, L"wb")` returns a stream. -/
  saveDestOpens : Bool
  /-- Result of `util_gzip_compress` on the save. -/
  gzipSave : Bool
  /-- Result of `config_save`. -/
  configSaved : Bool
  /-- Result of `screenshot_dump`. -/
  screenshotPath : String
  /-- Button returned by the consent `MessageBoxW`. -/
  answer : Int
  /-- Result of `HTTPUpload::SendRequest`. -/
  sendOk : Bool
  /-- Value of `error` after `SendRequest`. -/
  sendError : Int
  /-- Value of `response` after `SendRequest`. -/
  sendResponse : String
  /-- Whether `CoInitialize` succeeded. -/
  coInitOk : Bool
  /-- Whether `ILCreateFromPathW(dumpPath)` is non-null. -/
  pidlNonNull : Bool
  deriving DecidableEq

/-- The calls the handler makes to its surroundings. -/
inductive Event where
  /-- Console output of `printf` / `wprintf`. -/
  | print (text : String)
  /-- The call `MessageBoxA(nullptr, text, caption, flags)`. -/
  | MessageBoxA (text caption : String) (flags : Nat)
  /-- The call `MessageBoxW(nullptr, text, caption, flags)`. -/
  | MessageBoxW (text caption : String) (flags : Nat)
  /-- The call `_wfopen(path, mode)`. -/
  | wfopen (path mode : String)
  /-- The call of `util_gzip_compress` on the streams opened from `input` and `dest`. -/
  | util_gzip_compress (input dest : String)
  /-- The call of `fclose` on the stream opened from `path`. -/
  | fclose (path : String)
  /-- The call `_wrename(oldName, newName)`. -/
  | wrename (oldName newName : String)
  /-- The call of `S6Exporter::Export`. -/
  | Export
  /-- The call `S6Exporter::SaveGame(path)`. -/
  | SaveGame (path : String)
  /-- The call `config_save(path)`. -/
  | config_save (path : String)
  /-- The call `screenshot_dump()`. -/
  | screenshot_dump
  /-- The call `HTTPUpload::SendRequest(url, parameters, files, &timeout, ..)`. -/
  | SendRequest (url : String) (parameters files : WMap) (timeout : Nat)
  /-- The call `CoInitialize(nullptr)`. -/
  | comInit
  /-- The call of `SHOpenFolderAndSelectItems` on the folder `dir` with `files` selected. -/
  | SHOpenFolderAndSelectItems (dir : String) (files : List String)
  /-- The call `CoUninitialize()`. -/
  | comUninit
  deriving DecidableEq

/-- Is the event a message box. -/
def Event.isMessageBox : Event → Bool
  | .MessageBoxA _ _ _ => true
  | .MessageBoxW _ _ _ => true
  | _ => false

/-- Is the event an upload request. -/
def Event.isSendRequest : Event → Bool
  | .SendRequest _ _ _ _ => true
  | _ => false

/-- Is the event part of the file-browser reveal step. -/
def Event.isReveal : Event → Bool
  | .comInit => true
  | .SHOpenFolderAndSelectItems _ _ => true
  | .comUninit => true
  | _ => false

/-- Is the event part of artifact collection (dump compression and rename,
save export and compression, configuration save, screenshot). -/
def Event.isCollect : Event → Bool
  | .wfopen _ _ => true
  | .util_gzip_compress _ _ => true
  | .fclose _ => true
  | .wrename _ _ => true
  | .Export => true
  | .SaveGame _ => true
  | .config_save _ => true
  | .screenshot_dump => true
  | _ => false

/-- Windows constants used by the handler. -/
def MB_OK : Nat := 0x0
/-- Yes/No buttons. -/
def MB_YESNO : Nat := 0x4
/-- Error icon. -/
def MB_ICONERROR : Nat := 0x10
/-- Information icon. -/
def MB_ICONINFORMATION : Nat := 0x40
/-- The button id of "Yes". -/
def IDYES : Int := 6

/-- Conversion `String::ToUtf16` (identity on text). -/
def ToUtf16 (s : String) : String := s

/-- Conversion `widechar_to_utf8` (identity on text). -/
def widechar_to_utf8 (s : String) : String := s

/-- Conversion `utf8_to_widechar` (identity on text). -/
def utf8_to_widechar (s : String) : String := s

/-- The `%d` conversion of an `int`. -/
def fmtInt (n : Int) : String := toString n

/-- The `%d` conversion of a `bool`. -/
def fmtBool (b : Bool) : String := if b then "1" else "0"

/-- Outcome of `UploadMinidump`: the returned flag, the two out-parameters and
the calls made. -/
structure UploadResult where
  /-- Returned value. -/
  ret : Bool
  /-- Out-parameter `error`. -/
  error : Int
  /-- Out-parameter `response`. -/
  response : String
  /-- Calls made, in order. -/
  trace : List Event
  deriving DecidableEq

/-- The ingestion URL. -/
def uploadUrl : String :=
  "https://openrct2.sp.backtrace.io:6098/" ++
  "post?format=minidump&token=27bfc474b8739e7c1df37180727e717a0a95d3bf3f2a8eaaf17ad321fb179c6f"

/-- The text fields built by `UploadMinidump` (the map `parameters`). -/
def uploadParameters (b : Build) : WMap :=
  let parameters : WMap := []
  let parameters := mapAssign parameters "product_name" "openrct2"
  -- In case of releases this can be empty
  if b.wszCommitSha1Short.length > 0 then
    mapAssign parameters "commit" b.wszCommitSha1Short
  else
    mapAssign parameters "commit" (ToUtf16 b.gVersionInfoFull)

/-- Embedding of `UploadMinidump(files, error, response)`. -/
def UploadMinidump (b : Build) (w : World) (files : WMap) : UploadResult :=
  let log := files.map fun file =>
    Event.print ("files[" ++ file.1 ++ "] = " ++ file.2 ++ "\n")
  let url := uploadUrl
  let parameters := uploadParameters b
  let timeout := 10000
  let success := w.sendOk
  let error := w.sendError
  let response := w.sendResponse
  { ret := success
    error := error
    response := response
    trace := log ++
      [ Event.SendRequest url parameters files timeout,
        Event.print ("Success = " ++ fmtBool success ++ ", error = " ++ fmtInt error ++
          ", response = " ++ response ++ "\n") ] }

/-- The message shown when the dump could not be written. -/
def DumpFailedMessage : String :=
  "Failed to create the dump. Please file an issue with OpenRCT2 on GitHub and " ++
  "provide latest save, and provide " ++
  "information about what you did before the crash occurred."

/-- The text of the consent prompt (`MessageFormat` filled in), which
`swprintf_s` is asked to write into `message`. -/
def consentMessage (dumpFilePath version commit : String) : String :=
  "A crash has occurred and a dump was created at\n" ++ dumpFilePath ++ ".\n\nPlease file an issue " ++
  "with OpenRCT2 on GitHub, and provide " ++
  "the dump and saved game there.\n\nVersion: " ++ version ++ "\nCommit: " ++ commit ++ "\n\n" ++
  "We would like to upload the crash dump for automated analysis, do you agree?\n" ++
  "The automated analysis is done by courtesy of https://backtrace.io/"

/-- The text of the upload-failure message (`MessageFormat2` filled in), which
`swprintf_s` is asked to write into `message`. -/
def uploadFailedMessage (error : Int) (response : String) : String :=
  "There was a problem while uploading the dump. Please upload it manually to " ++
  "GitHub. It should be highlighted for you once you close this message.\n" ++
  "Please provide following information as well:\n" ++
  "Error code = " ++ fmtInt error ++ "\n" ++
  "Response = " ++ response

/-- The upload-success message. -/
def uploadSucceededMessage : String := "Dump uploaded succesfully."

/-- The constant `MAX_PATH` of the Windows headers. -/
def MAX_PATH : Nat := 260

/-- The ways a run of the handler ends without returning. -/
inductive Fault where
  /-- A `swprintf_s` call wrote past the end of its array. -/
  | bufferOverrun
  /-- The invalid-parameter handler of the C runtime was entered. -/
  | invalidParameter
  deriving DecidableEq

/-- The call `swprintf_s(buffer, count, ..)` for an array `buffer` of `capacity`
elements and formatted result `text`: the result and its terminator must fit
`count`, or the invalid-parameter handler is entered; when `count` is larger
than the array a result that fits `count` can still overrun the array. -/
def swprintf_s (capacity count : Nat) (text : String) : Except Fault String :=
  if text.length < count then
    if text.length < capacity then .ok text else .error Fault.bufferOverrun
  else .error Fault.invalidParameter

/-- How a run of `OnCrash` ends. -/
inductive Ending where
  /-- The handler returned `value` to the dump producer. -/
  | returned (value : Bool)
  /-- The run ended in a fault; nothing is returned. -/
  | faulted (why : Fault)
  deriving DecidableEq

/-- Outcome of `OnCrash`: how the run ended, the calls made in order, and the
last value of the local `uploadFiles` (empty when the run ends before it is
declared). -/
structure CrashResult where
  /-- The returned value, or the fault. -/
  ending : Ending
  /-- Calls made, in order. -/
  trace : List Event
  /-- Final value of `uploadFiles`. -/
  uploadFiles : WMap
  deriving DecidableEq

/-- The file names formatted at the start of `OnCrash` (never reassigned). -/
structure Paths where
  /-- Initial contents of `dumpFilePath`. -/
  dumpFilePath : String
  /-- Contents of `saveFilePath`. -/
  saveFilePath : String
  /-- Contents of `configFilePath`. -/
  configFilePath : String
  /-- Contents of `saveFilePathGZIP`. -/
  saveFilePathGZIP : String
  /-- Contents of `dumpFilePathNew`. -/
  dumpFilePathNew : String
  /-- Contents of `dumpFilePathGZIP`. -/
  dumpFilePathGZIP : String
  deriving DecidableEq

/-- The texts of the six format calls of the block "Get filenames". -/
def fileNames (b : Build) (dumpPath miniDumpId : String) : Paths :=
  let dumpFilePathNew :=
    dumpPath ++ "\\" ++ miniDumpId ++ "(" ++ b.wszCommitSha1Short ++ "_" ++
      b.wszArchitecture ++ ").dmp"
  { dumpFilePath := dumpPath ++ "\\" ++ miniDumpId ++ ".dmp"
    saveFilePath := dumpPath ++ "\\" ++ miniDumpId ++ ".sv6"
    configFilePath := dumpPath ++ "\\" ++ miniDumpId ++ ".ini"
    saveFilePathGZIP := dumpPath ++ "\\" ++ miniDumpId ++ ".sv6.gz"
    dumpFilePathNew := dumpFilePathNew
    dumpFilePathGZIP := dumpFilePathNew ++ ".gz" }

/-- The block "Get filenames" of `OnCrash`: six `swprintf_s` calls, in source
order, each into a `wchar_t[MAX_PATH]` array with `sizeof` of the array, that
is `2 * MAX_PATH`, as the count. -/
def getFilenames (b : Build) (dumpPath miniDumpId : String) : Except Fault Paths :=
  match swprintf_s MAX_PATH (2 * MAX_PATH) (fileNames b dumpPath miniDumpId).dumpFilePath with
  | .error f => .error f
  | .ok dumpFilePath =>
  match swprintf_s MAX_PATH (2 * MAX_PATH) (fileNames b dumpPath miniDumpId).saveFilePath with
  | .error f => .error f
  | .ok saveFilePath =>
  match swprintf_s MAX_PATH (2 * MAX_PATH) (fileNames b dumpPath miniDumpId).configFilePath with
  | .error f => .error f
  | .ok configFilePath =>
  match swprintf_s MAX_PATH (2 * MAX_PATH)
      (fileNames b dumpPath miniDumpId).saveFilePathGZIP with
  | .error f => .error f
  | .ok saveFilePathGZIP =>
  match swprintf_s MAX_PATH (2 * MAX_PATH)
      (fileNames b dumpPath miniDumpId).dumpFilePathNew with
  | .error f => .error f
  | .ok dumpFilePathNew =>
  match swprintf_s MAX_PATH (2 * MAX_PATH) (dumpFilePathNew ++ ".gz") with
  | .error f => .error f
  | .ok dumpFilePathGZIP =>
    .ok
      { dumpFilePath := dumpFilePath
        saveFilePath := saveFilePath
        configFilePath := configFilePath
        saveFilePathGZIP := saveFilePathGZIP
        dumpFilePathNew := dumpFilePathNew
        dumpFilePathGZIP := dumpFilePathGZIP }

/-- The locals of `OnCrash` that change while it runs, with the calls made so
far. -/
structure Locals where
  /-- Current contents of `dumpFilePath`. -/
  dumpFilePath : String
  /-- Current value of `savedGameDumped`. -/
  savedGameDumped : Bool
  /-- Current value of `uploadFiles`. -/
  uploadFiles : WMap
  /-- Calls made so far, in order. -/
  trace : List Event
  deriving DecidableEq

/-- The block "Compress the dump": reads `dumpFilePath`, writes
`dumpFilePathGZIP`; the body of the `if` on the result is commented out in the
source, so `uploadFiles` is left as it is on both branches. The two streams are
closed without a null check: the run ends at the first that is null. -/
def compressDump (p : Paths) (w : World) (s : Locals) : Except (Fault × Locals) Locals :=
  let s : Locals :=
    { s with
      uploadFiles := if w.gzipDump then s.uploadFiles else s.uploadFiles
      trace := s.trace ++
        [ Event.wfopen s.dumpFilePath "rb",
          Event.wfopen p.dumpFilePathGZIP "wb",
          Event.util_gzip_compress s.dumpFilePath p.dumpFilePathGZIP ] }
  if !w.dumpInputOpens then .error (Fault.invalidParameter, s)
  else
    let s : Locals := { s with trace := s.trace ++ [Event.fclose s.dumpFilePath] }
    if !w.dumpDestOpens then .error (Fault.invalidParameter, s)
    else .ok { s with trace := s.trace ++ [Event.fclose p.dumpFilePathGZIP] }

/-- The block "Try to rename the files", with the assignment of
`uploadFiles[L"upload_file_minidump"]` that follows it. -/
def renameDump (p : Paths) (w : World) (s : Locals) : Locals :=
  let dumpFilePath := if w.renameOk then p.dumpFilePathNew else s.dumpFilePath
  { s with
    dumpFilePath := dumpFilePath
    uploadFiles := mapAssign s.uploadFiles "upload_file_minidump" dumpFilePath
    trace := s.trace ++ [Event.wrename s.dumpFilePath p.dumpFilePathNew] }

/-- The block "Log information to output". -/
def logInformation (b : Build) (dumpPath miniDumpId : String) (s : Locals) : Locals :=
  { s with
    trace := s.trace ++
      [ Event.print ("Dump Path: " ++ dumpPath ++ "\n"),
        Event.print ("Dump File Path: " ++ s.dumpFilePath ++ "\n"),
        Event.print ("Dump Id: " ++ miniDumpId ++ "\n"),
        Event.print ("Version: " ++ b.OPENRCT2_VERSION ++ "\n"),
        Event.print ("Commit: " ++ b.wszCommitSha1Short ++ "\n") ] }

/-- The `try` block that exports the save: `SaveGame` runs only when `Export`
did not throw, and `savedGameDumped` is set only when neither threw. -/
def exportSave (p : Paths) (w : World) (s : Locals) : Locals :=
  let saveFilePathUTF8 := widechar_to_utf8 p.saveFilePath
  { s with
    savedGameDumped := !w.exportThrows && !w.saveGameThrows
    trace := s.trace ++
      (if w.exportThrows then [Event.Export]
       else [Event.Export, Event.SaveGame saveFilePathUTF8]) }

/-- The block "Compress the save": the entry is assigned before the two streams
are closed, again without a null check. -/
def compressSave (p : Paths) (w : World) (s : Locals) : Except (Fault × Locals) Locals :=
  if s.savedGameDumped then
    let s : Locals :=
      { s with
        uploadFiles :=
          if w.gzipSave then mapAssign s.uploadFiles "attachment_park.sv6.gz" p.saveFilePathGZIP
          else mapAssign s.uploadFiles "attachment_park.sv6" p.saveFilePath
        trace := s.trace ++
          [ Event.wfopen p.saveFilePath "rb",
            Event.wfopen p.saveFilePathGZIP "wb",
            Event.util_gzip_compress p.saveFilePath p.saveFilePathGZIP ] }
    if !w.saveInputOpens then .error (Fault.invalidParameter, s)
    else
      let s : Locals := { s with trace := s.trace ++ [Event.fclose p.saveFilePath] }
      if !w.saveDestOpens then .error (Fault.invalidParameter, s)
      else .ok { s with trace := s.trace ++ [Event.fclose p.saveFilePathGZIP] }
  else .ok s

/-- The call of `config_save` and the entry it adds. -/
def saveConfig (p : Paths) (w : World) (s : Locals) : Locals :=
  let configFilePathUTF8 := widechar_to_utf8 p.configFilePath
  { s with
    uploadFiles :=
      if w.configSaved then mapAssign s.uploadFiles "attachment_config.ini" p.configFilePath
      else s.uploadFiles
    trace := s.trace ++ [Event.config_save configFilePathUTF8] }

/-- The call of `screenshot_dump` and the entry it adds. -/
def dumpScreenshot (w : World) (s : Locals) : Locals :=
  let screenshotPath := w.screenshotPath
  { s with
    uploadFiles :=
      if screenshotPath ≠ "" then
        mapAssign s.uploadFiles "attachment_screenshot.png" (utf8_to_widechar screenshotPath)
      else s.uploadFiles
    trace := s.trace ++ [Event.screenshot_dump] }

/-- Lines 115 to 197 of `OnCrash`: everything between the file names and the
test of the silent flag. -/
def collect (b : Build) (w : World) (dumpPath miniDumpId : String) (p : Paths) :
    Except (Fault × Locals) Locals :=
  let s : Locals :=
    { dumpFilePath := p.dumpFilePath, savedGameDumped := false, uploadFiles := [], trace := [] }
  match compressDump p w s with
  | .error stop => .error stop
  | .ok s =>
    let s := renameDump p w s
    let s := logInformation b dumpPath miniDumpId s
    let s := exportSave p w s
    match compressSave p w s with
    | .error stop => .error stop
    | .ok s =>
      let s := saveConfig p w s
      .ok (dumpScreenshot w s)

/-- The consent prompt and, on `IDYES`, the upload with its result message.
Both texts are formatted into `wchar_t message[MAX_PATH * 2]`, the count being
the size of the array. -/
def askAndUpload (b : Build) (w : World) (s : Locals) : Except (Fault × Locals) Locals :=
  match swprintf_s (MAX_PATH * 2) (MAX_PATH * 2)
      (consentMessage s.dumpFilePath b.OPENRCT2_VERSION b.wszCommitSha1Short) with
  | .error f => .error (f, s)
  | .ok message =>
    let s : Locals :=
      { s with
        trace := s.trace ++
          [Event.MessageBoxW message b.OPENRCT2_NAME (MB_YESNO ||| MB_ICONERROR)] }
    let answer := w.answer
    if answer = IDYES then
      let up := UploadMinidump b w s.uploadFiles
      let ok := up.ret
      let s : Locals := { s with trace := s.trace ++ up.trace }
      if !ok then
        match swprintf_s (MAX_PATH * 2) (MAX_PATH * 2)
            (uploadFailedMessage up.error up.response) with
        | .error f => .error (f, s)
        | .ok message =>
          .ok { s with
                trace := s.trace ++
                  [Event.MessageBoxW message b.OPENRCT2_NAME (MB_OK ||| MB_ICONERROR)] }
      else
        .ok { s with
              trace := s.trace ++
                [Event.MessageBoxW uploadSucceededMessage b.OPENRCT2_NAME
                  (MB_OK ||| MB_ICONINFORMATION)] }
    else .ok s

/-- The last block of `OnCrash`: open the dump folder with the files selected. -/
def revealFiles (p : Paths) (w : World) (dumpPath : String) (s : Locals) : Locals :=
  if w.coInitOk then
    let files := [s.dumpFilePath, p.dumpFilePathGZIP]
    let files := if s.savedGameDumped then files ++ [p.saveFilePath] else files
    { s with
      trace := s.trace ++ [Event.comInit] ++
        (if w.pidlNonNull then [Event.SHOpenFolderAndSelectItems dumpPath files] else []) ++
        [Event.comUninit] }
  else
    { s with trace := s.trace ++ [Event.comInit] }

/-- Lines 199 to 265 of `OnCrash`: from the test of the silent flag to the
final `return succeeded`. -/
def finish (b : Build) (w : World) (dumpPath : String) (p : Paths) (succeeded : Bool)
    (s : Locals) : CrashResult :=
  if b.gOpenRCT2SilentBreakpad then
    let up := UploadMinidump b w s.uploadFiles
    { ending := .returned succeeded, trace := s.trace ++ up.trace, uploadFiles := s.uploadFiles }
  else
    match askAndUpload b w s with
    | .error (f, s) => { ending := .faulted f, trace := s.trace, uploadFiles := s.uploadFiles }
    | .ok s =>
      let s := revealFiles p w dumpPath s
      -- Return whether the dump was successful
      { ending := .returned succeeded, trace := s.trace, uploadFiles := s.uploadFiles }

/-- Embedding of `OnCrash(dumpPath, miniDumpId, context, exinfo, assertion,
succeeded)`; the three unused pointer arguments are left out. -/
def OnCrash (b : Build) (w : World) (dumpPath miniDumpId : String) (succeeded : Bool) :
    CrashResult :=
  if !succeeded then
    { ending := .returned succeeded
      trace := Event.print (DumpFailedMessage ++ "\n") ::
        (if !b.gOpenRCT2SilentBreakpad then
          [Event.MessageBoxA DumpFailedMessage b.OPENRCT2_NAME (MB_OK ||| MB_ICONERROR)]
         else [])
      uploadFiles := [] }
  else
    match getFilenames b dumpPath miniDumpId with
    | .error f => { ending := .faulted f, trace := [], uploadFiles := [] }
    | .ok p =>
      match collect b w dumpPath miniDumpId p with
      | .error (f, s) => { ending := .faulted f, trace := s.trace, uploadFiles := s.uploadFiles }
      | .ok s => finish b w dumpPath p succeeded s

/-- Every file name formatted at the start of `OnCrash` fits its
`wchar_t[MAX_PATH]` array, terminator included. -/
abbrev PathsFit (b : Build) (dumpPath miniDumpId : String) : Prop :=
  (fileNames b dumpPath miniDumpId).dumpFilePath.length < MAX_PATH ∧
  (fileNames b dumpPath miniDumpId).saveFilePath.length < MAX_PATH ∧
  (fileNames b dumpPath miniDumpId).configFilePath.length < MAX_PATH ∧
  (fileNames b dumpPath miniDumpId).saveFilePathGZIP.length < MAX_PATH ∧
  (fileNames b dumpPath miniDumpId).dumpFilePathNew.length < MAX_PATH ∧
  (fileNames b dumpPath miniDumpId).dumpFilePathGZIP.length < MAX_PATH

/-- Both `_wfopen` calls of the block "Compress the dump" return a stream. -/
abbrev DumpStreamsOpen (w : World) : Prop :=
  w.dumpInputOpens = true ∧ w.dumpDestOpens = true

/-- Every `_wfopen` call the run makes returns a stream: the two on the dump,
and the two on the save when the save was exported. -/
abbrev StreamsOpen (w : World) : Prop :=
  DumpStreamsOpen w ∧
  (w.exportThrows = false ∧ w.saveGameThrows = false →
    w.saveInputOpens = true ∧ w.saveDestOpens = true)

/-- The contents of `dumpFilePath` once the rename has been tried. -/
def dumpFilePathAfterRename (b : Build) (w : World) (dumpPath miniDumpId : String) : String :=
  if w.renameOk then (fileNames b dumpPath miniDumpId).dumpFilePathNew
  else (fileNames b dumpPath miniDumpId).dumpFilePath

/-- The calls of the block `revealFiles`, in order (closed form). -/
def revealEvents (p : Paths) (w : World) (dumpPath : String) (s : Locals) : List Event :=
  Event.comInit ::
    (if w.coInitOk then
      (if w.pidlNonNull then
        [Event.SHOpenFolderAndSelectItems dumpPath
          ([s.dumpFilePath, p.dumpFilePathGZIP] ++
            (if s.savedGameDumped then [p.saveFilePath] else []))]
       else []) ++ [Event.comUninit]
     else [])

/-- The bundle at the test of the silent flag, in iteration order (closed form
of `collect` when every stream opens). -/
def collectedFiles (w : World) (p : Paths) : WMap :=
  (if w.configSaved then [("attachment_config.ini", p.configFilePath)] else []) ++
  (if w.exportThrows = false ∧ w.saveGameThrows = false then
    (if w.gzipSave then [("attachment_park.sv6.gz", p.saveFilePathGZIP)]
     else [("attachment_park.sv6", p.saveFilePath)])
   else []) ++
  (if w.screenshotPath ≠ "" then [("attachment_screenshot.png", w.screenshotPath)] else []) ++
  [("upload_file_minidump", if w.renameOk then p.dumpFilePathNew else p.dumpFilePath)]

/-- The calls of the block "Compress the dump" when both streams open. -/
def dumpEvents (p : Paths) : List Event :=
  [ Event.wfopen p.dumpFilePath "rb",
    Event.wfopen p.dumpFilePathGZIP "wb",
    Event.util_gzip_compress p.dumpFilePath p.dumpFilePathGZIP,
    Event.fclose p.dumpFilePath,
    Event.fclose p.dumpFilePathGZIP ]

/-- The calls from the rename to the save export (closed form). -/
def exportEvents (b : Build) (w : World) (dumpPath miniDumpId : String) (p : Paths) :
    List Event :=
  [ Event.wrename p.dumpFilePath p.dumpFilePathNew,
    Event.print ("Dump Path: " ++ dumpPath ++ "\n"),
    Event.print ("Dump File Path: " ++
      (if w.renameOk then p.dumpFilePathNew else p.dumpFilePath) ++ "\n"),
    Event.print ("Dump Id: " ++ miniDumpId ++ "\n"),
    Event.print ("Version: " ++ b.OPENRCT2_VERSION ++ "\n"),
    Event.print ("Commit: " ++ b.wszCommitSha1Short ++ "\n"),
    Event.Export ] ++
  (if w.exportThrows then [] else [Event.SaveGame p.saveFilePath])

/-- The calls made up to the test of the silent flag, in order (closed form of
`collect` when every stream opens). -/
def collectedTrace (b : Build) (w : World) (dumpPath miniDumpId : String) (p : Paths) :
    List Event :=
  dumpEvents p ++ exportEvents b w dumpPath miniDumpId p ++
  (if w.exportThrows = false ∧ w.saveGameThrows = false then
    [ Event.wfopen p.saveFilePath "rb",
      Event.wfopen p.saveFilePathGZIP "wb",
      Event.util_gzip_compress p.saveFilePath p.saveFilePathGZIP,
      Event.fclose p.saveFilePath,
      Event.fclose p.saveFilePathGZIP ]
   else []) ++
  [ Event.config_save p.configFilePath, Event.screenshot_dump ]

/-- The locals at the test of the silent flag (closed form of `collect` when
every stream opens). -/
def collected (b : Build) (w : World) (dumpPath miniDumpId : String) (p : Paths) : Locals :=
  { dumpFilePath := if w.renameOk then p.dumpFilePathNew else p.dumpFilePath
    savedGameDumped := !w.exportThrows && !w.saveGameThrows
    uploadFiles := collectedFiles w p
    trace := collectedTrace b w dumpPath miniDumpId p }

/-- Is the event a call of `util_gzip_compress`. -/
def Event.isGzip : Event → Bool
  | .util_gzip_compress _ _ => true
  | _ => false

/-- Is the event a call of `_wrename`. -/
def Event.isRename : Event → Bool
  | .wrename _ _ => true
  | _ => false

/-- The input paths of the compression calls of a trace, in order. -/
def gzipInputs (t : List Event) : List String :=
  t.filterMap fun
    | .util_gzip_compress input _ => some input
    | _ => none

/-! ## Sample inputs -/

/-- A development build. -/
def sampleBuild : Build :=
  { OPENRCT2_NAME := "OpenRCT2"
    OPENRCT2_VERSION := "0.2.2"
    wszCommitSha1Short := "abc1234"
    wszArchitecture := "x86-64"
    gVersionInfoFull := "OpenRCT2, v0.2.2"
    gOpenRCT2SilentBreakpad := false }

/-- A world in which every step succeeds and the user agrees. -/
def sampleWorld : World :=
  { dumpInputOpens := true
    dumpDestOpens := true
    saveInputOpens := true
    saveDestOpens := true
    gzipDump := true
    renameOk := true
    exportThrows := false
    saveGameThrows := false
    gzipSave := true
    configSaved := true
    screenshotPath := "C:\\shots\\SCR1.png"
    answer := 6
    sendOk := true
    sendError := 0
    sendResponse := "ok"
    coInitOk := true
    pidlNonNull := true }

/-- A release build (no commit hash) reporting silently. -/
def releaseBuild : Build :=
  { OPENRCT2_NAME := "OpenRCT2"
    OPENRCT2_VERSION := "0.2.2"
    wszCommitSha1Short := ""
    wszArchitecture := "x86"
    gVersionInfoFull := "OpenRCT2, v0.2.2"
    gOpenRCT2SilentBreakpad := true }

/-- A world in which the user declines and the upload would fail. -/
def decliningWorld : World :=
  { sampleWorld with answer := 7, sendOk := false, sendError := 12002, sendResponse := "" }

/-- A string has positive length exactly when it is not empty. -/
theorem length_pos_iff_ne_empty (s : String) : s.length > 0 ↔ s ≠ "" := by
  constructor
  · intro h e
    subst e
    exact absurd h (by decide)
  · intro h
    rcases s with ⟨l⟩
    cases l with
    | nil => exact absurd rfl h
    | cons a t => simp [String.length]

/-- A text that fits the array is written as it is. -/
theorem swprintf_s_ok (capacity count : Nat) (text : String) (hcap : capacity ≤ count)
    (hfit : text.length < capacity) : swprintf_s capacity count text = .ok text := by
  have hcount : text.length < count := Nat.lt_of_lt_of_le hfit hcap
  simp [swprintf_s, hfit, hcount]

/-- A text that does not fit the array ends the run. -/
theorem swprintf_s_error (capacity count : Nat) (text : String)
    (hfit : ¬ text.length < capacity) : ∃ f, swprintf_s capacity count text = .error f := by
  unfold swprintf_s
  by_cases hcount : text.length < count
  · exact ⟨Fault.bufferOverrun, by simp [hfit, hcount]⟩
  · exact ⟨Fault.invalidParameter, by simp [hcount]⟩

/-- A text that does not fit `message` enters the invalid-parameter handler. -/
theorem swprintf_s_message_error (text : String) (hfit : ¬ text.length < MAX_PATH * 2) :
    swprintf_s (MAX_PATH * 2) (MAX_PATH * 2) text = .error Fault.invalidParameter := by
  simp [swprintf_s, hfit]

/-- The bounds of a file-name array: 259 characters fit, 260 to 519 run over the
array, 520 enter the invalid-parameter handler. -/
theorem swprintf_s_bounds :
    swprintf_s MAX_PATH (2 * MAX_PATH) (String.mk (List.replicate 259 'x')) =
      .ok (String.mk (List.replicate 259 'x')) ∧
    swprintf_s MAX_PATH (2 * MAX_PATH) (String.mk (List.replicate 260 'x')) =
      .error Fault.bufferOverrun ∧
    swprintf_s MAX_PATH (2 * MAX_PATH) (String.mk (List.replicate 519 'x')) =
      .error Fault.bufferOverrun ∧
    swprintf_s MAX_PATH (2 * MAX_PATH) (String.mk (List.replicate 520 'x')) =
      .error Fault.invalidParameter := by
  refine ⟨?_, ?_, ?_, ?_⟩ <;> simp [swprintf_s, String.length, MAX_PATH]

/-- The compressed dump name is the new dump name followed by `.gz`. -/
theorem fileNames_gz (b : Build) (dumpPath miniDumpId : String) :
    (fileNames b dumpPath miniDumpId).dumpFilePathGZIP =
      (fileNames b dumpPath miniDumpId).dumpFilePathNew ++ ".gz" := rfl

/-- When every file name fits, the block "Get filenames" yields them. -/
theorem getFilenames_ok (b : Build) (dumpPath miniDumpId : String)
    (hfit : PathsFit b dumpPath miniDumpId) :
    getFilenames b dumpPath miniDumpId = .ok (fileNames b dumpPath miniDumpId) := by
  obtain ⟨h1, h2, h3, h4, h5, h6⟩ := hfit
  have hcap : MAX_PATH ≤ 2 * MAX_PATH := by decide
  unfold getFilenames
  rw [swprintf_s_ok _ _ _ hcap h1, swprintf_s_ok _ _ _ hcap h2, swprintf_s_ok _ _ _ hcap h3,
    swprintf_s_ok _ _ _ hcap h4, swprintf_s_ok _ _ _ hcap h5]
  rw [fileNames_gz] at h6
  simp only
  rw [swprintf_s_ok _ _ _ hcap h6]
  rfl

/-- When some file name does not fit, the block "Get filenames" ends the run. -/
theorem getFilenames_error (b : Build) (dumpPath miniDumpId : String)
    (hfit : ¬ PathsFit b dumpPath miniDumpId) :
    ∃ f, getFilenames b dumpPath miniDumpId = .error f := by
  have hcap : MAX_PATH ≤ 2 * MAX_PATH := by decide
  unfold getFilenames
  by_cases h1 : (fileNames b dumpPath miniDumpId).dumpFilePath.length < MAX_PATH
  swap
  · obtain ⟨f, hf⟩ := swprintf_s_error MAX_PATH (2 * MAX_PATH) _ h1
    exact ⟨f, by rw [hf]⟩
  rw [swprintf_s_ok _ _ _ hcap h1]
  by_cases h2 : (fileNames b dumpPath miniDumpId).saveFilePath.length < MAX_PATH
  swap
  · obtain ⟨f, hf⟩ := swprintf_s_error MAX_PATH (2 * MAX_PATH) _ h2
    exact ⟨f, by rw [hf]⟩
  rw [swprintf_s_ok _ _ _ hcap h2]
  by_cases h3 : (fileNames b dumpPath miniDumpId).configFilePath.length < MAX_PATH
  swap
  · obtain ⟨f, hf⟩ := swprintf_s_error MAX_PATH (2 * MAX_PATH) _ h3
    exact ⟨f, by rw [hf]⟩
  rw [swprintf_s_ok _ _ _ hcap h3]
  by_cases h4 : (fileNames b dumpPath miniDumpId).saveFilePathGZIP.length < MAX_PATH
  swap
  · obtain ⟨f, hf⟩ := swprintf_s_error MAX_PATH (2 * MAX_PATH) _ h4
    exact ⟨f, by rw [hf]⟩
  rw [swprintf_s_ok _ _ _ hcap h4]
  by_cases h5 : (fileNames b dumpPath miniDumpId).dumpFilePathNew.length < MAX_PATH
  swap
  · obtain ⟨f, hf⟩ := swprintf_s_error MAX_PATH (2 * MAX_PATH) _ h5
    exact ⟨f, by rw [hf]⟩
  rw [swprintf_s_ok _ _ _ hcap h5]
  have h6 : ¬ (fileNames b dumpPath miniDumpId).dumpFilePathGZIP.length < MAX_PATH :=
    fun h6 => hfit ⟨h1, h2, h3, h4, h5, h6⟩
  rw [fileNames_gz] at h6
  obtain ⟨f, hf⟩ := swprintf_s_error MAX_PATH (2 * MAX_PATH) _ h6
  refine ⟨f, ?_⟩
  simp only
  rw [hf]

/-! ### The blocks of `OnCrash` -/

/-- The text fields, in iteration order. -/
theorem uploadParameters_eq (b : Build) :
    uploadParameters b =
      [("commit", if b.wszCommitSha1Short = "" then b.gVersionInfoFull else b.wszCommitSha1Short),
       ("product_name", "openrct2")] := by
  unfold uploadParameters
  by_cases h : b.wszCommitSha1Short = ""
  · simp [h, mapAssign, wstringLess, wcsLess, ToUtf16]
  · have hpos := (length_pos_iff_ne_empty _).2 h
    simp [h, hpos, mapAssign, wstringLess, wcsLess]

/-- The calls of `UploadMinidump`: one line of log per file, one request, one
line of log for the result. -/
theorem UploadMinidump_trace (b : Build) (w : World) (files : WMap) :
    (UploadMinidump b w files).trace =
      files.map (fun file => Event.print ("files[" ++ file.1 ++ "] = " ++ file.2 ++ "\n")) ++
      [ Event.SendRequest uploadUrl (uploadParameters b) files 10000,
        Event.print ("Success = " ++ fmtBool w.sendOk ++ ", error = " ++ fmtInt w.sendError ++
          ", response = " ++ w.sendResponse ++ "\n") ] := rfl

/-- An upload sends exactly one request. -/
theorem UploadMinidump_one_request (b : Build) (w : World) (files : WMap) :
    (UploadMinidump b w files).trace.filter Event.isSendRequest =
      [Event.SendRequest uploadUrl (uploadParameters b) files 10000] := by
  rw [UploadMinidump_trace]
  simp [List.filter_map, Event.isSendRequest, Function.comp_def]

/-- With every stream open, collecting reaches the test of the silent flag with
the closed-form bundle and calls. -/
theorem collect_ok (b : Build) (w : World) (dumpPath miniDumpId : String) (p : Paths)
    (hopen : StreamsOpen w) :
    collect b w dumpPath miniDumpId p = .ok (collected b w dumpPath miniDumpId p) := by
  rcases w with ⟨di, dd, gd, rn, et, st, si, sd, gs, cs, sp, an, so, se, sr, ci, pn⟩
  obtain ⟨⟨hdi, hdd⟩, hsave⟩ := hopen
  simp only at hdi hdd hsave
  subst hdi hdd
  by_cases hsp : sp = "" <;> cases et <;> cases st <;> cases gs <;> cases cs <;>
    simp_all [collect, compressDump, renameDump, logInformation, exportSave, compressSave,
      saveConfig, dumpScreenshot, mapAssign, wstringLess, wcsLess, utf8_to_widechar,
      widechar_to_utf8, collected, collectedFiles, collectedTrace, dumpEvents, exportEvents]

/-- With a dump stream that does not open, the run ends in `fclose` before the
rename, with an empty bundle. -/
theorem collect_dump_fault (b : Build) (w : World) (dumpPath miniDumpId : String) (p : Paths)
    (hdump : ¬ DumpStreamsOpen w) :
    collect b w dumpPath miniDumpId p =
      .error (Fault.invalidParameter,
        { dumpFilePath := p.dumpFilePath
          savedGameDumped := false
          uploadFiles := []
          trace :=
            [ Event.wfopen p.dumpFilePath "rb",
              Event.wfopen p.dumpFilePathGZIP "wb",
              Event.util_gzip_compress p.dumpFilePath p.dumpFilePathGZIP ] ++
            (if w.dumpInputOpens then [Event.fclose p.dumpFilePath] else []) }) := by
  rcases w with ⟨di, dd, gd, rn, et, st, si, sd, gs, cs, sp, an, so, se, sr, ci, pn⟩
  cases di <;> cases dd <;> simp_all [collect, compressDump]

/-- With the dump streams open, the save exported and a save stream that does
not open, the run ends in `fclose` before `config_save`; the bundle holds the
dump and the save. -/
theorem collect_save_fault (b : Build) (w : World) (dumpPath miniDumpId : String) (p : Paths)
    (hdump : DumpStreamsOpen w) (hsaved : w.exportThrows = false ∧ w.saveGameThrows = false)
    (hsave : ¬ (w.saveInputOpens = true ∧ w.saveDestOpens = true)) :
    collect b w dumpPath miniDumpId p =
      .error (Fault.invalidParameter,
        { dumpFilePath := if w.renameOk then p.dumpFilePathNew else p.dumpFilePath
          savedGameDumped := true
          uploadFiles :=
            [ if w.gzipSave then ("attachment_park.sv6.gz", p.saveFilePathGZIP)
              else ("attachment_park.sv6", p.saveFilePath),
              ("upload_file_minidump",
                if w.renameOk then p.dumpFilePathNew else p.dumpFilePath) ]
          trace :=
            dumpEvents p ++ exportEvents b w dumpPath miniDumpId p ++
            [ Event.wfopen p.saveFilePath "rb",
              Event.wfopen p.saveFilePathGZIP "wb",
              Event.util_gzip_compress p.saveFilePath p.saveFilePathGZIP ] ++
            (if w.saveInputOpens then [Event.fclose p.saveFilePath] else []) }) := by
  rcases w with ⟨di, dd, gd, rn, et, st, si, sd, gs, cs, sp, an, so, se, sr, ci, pn⟩
  obtain ⟨hdi, hdd⟩ := hdump
  obtain ⟨het, hst⟩ := hsaved
  simp only at hdi hdd het hst hsave
  subst hdi hdd het hst
  cases si <;> cases sd <;> cases gs <;>
    simp_all [collect, compressDump, renameDump, logInformation, exportSave, compressSave,
      mapAssign, wstringLess, wcsLess, widechar_to_utf8, dumpEvents, exportEvents]

/-- The calls of the last block. -/
theorem revealFiles_eq (p : Paths) (w : World) (dumpPath : String) (s : Locals) :
    revealFiles p w dumpPath s = { s with trace := s.trace ++ revealEvents p w dumpPath s } := by
  unfold revealFiles revealEvents
  cases w.coInitOk <;> cases w.pidlNonNull <;> cases s.savedGameDumped <;> simp

/-- In silent mode the handler uploads and returns. -/
theorem finish_silent (b : Build) (w : World) (dumpPath : String) (p : Paths)
    (succeeded : Bool) (s : Locals) (hsilent : b.gOpenRCT2SilentBreakpad = true) :
    finish b w dumpPath p succeeded s =
      { ending := .returned succeeded
        trace := s.trace ++ (UploadMinidump b w s.uploadFiles).trace
        uploadFiles := s.uploadFiles } := by
  simp [finish, hsilent]

/-- A consent text that does not fit `message` ends the run before the prompt. -/
theorem finish_prompt_fault (b : Build) (w : World) (dumpPath : String) (p : Paths)
    (succeeded : Bool) (s : Locals) (hsilent : b.gOpenRCT2SilentBreakpad = false)
    (hfit : ¬ (consentMessage s.dumpFilePath b.OPENRCT2_VERSION
      b.wszCommitSha1Short).length < MAX_PATH * 2) :
    finish b w dumpPath p succeeded s =
      { ending := .faulted Fault.invalidParameter
        trace := s.trace
        uploadFiles := s.uploadFiles } := by
  simp [finish, hsilent, askAndUpload, swprintf_s_message_error _ hfit]

/-- After an answer other than yes the handler goes on to the last block. -/
theorem finish_declined (b : Build) (w : World) (dumpPath : String) (p : Paths)
    (succeeded : Bool) (s : Locals) (hsilent : b.gOpenRCT2SilentBreakpad = false)
    (hfit : (consentMessage s.dumpFilePath b.OPENRCT2_VERSION
      b.wszCommitSha1Short).length < MAX_PATH * 2)
    (hanswer : w.answer ≠ IDYES) :
    finish b w dumpPath p succeeded s =
      { ending := .returned succeeded
        trace := s.trace ++
          ([Event.MessageBoxW
            (consentMessage s.dumpFilePath b.OPENRCT2_VERSION b.wszCommitSha1Short)
            b.OPENRCT2_NAME (MB_YESNO ||| MB_ICONERROR)] ++
          revealEvents p w dumpPath s)
        uploadFiles := s.uploadFiles } := by
  simp [finish, hsilent, askAndUpload, swprintf_s_ok _ _ _ (Nat.le_refl _) hfit, hanswer,
    revealFiles_eq, revealEvents]

/-- After a yes and a successful upload the handler confirms and goes on. -/
theorem finish_uploaded (b : Build) (w : World) (dumpPath : String) (p : Paths)
    (succeeded : Bool) (s : Locals) (hsilent : b.gOpenRCT2SilentBreakpad = false)
    (hfit : (consentMessage s.dumpFilePath b.OPENRCT2_VERSION
      b.wszCommitSha1Short).length < MAX_PATH * 2)
    (hanswer : w.answer = IDYES) (hok : w.sendOk = true) :
    finish b w dumpPath p succeeded s =
      { ending := .returned succeeded
        trace := s.trace ++
          ([Event.MessageBoxW
            (consentMessage s.dumpFilePath b.OPENRCT2_VERSION b.wszCommitSha1Short)
            b.OPENRCT2_NAME (MB_YESNO ||| MB_ICONERROR)] ++
          (UploadMinidump b w s.uploadFiles).trace ++
          [Event.MessageBoxW uploadSucceededMessage b.OPENRCT2_NAME
            (MB_OK ||| MB_ICONINFORMATION)] ++
          revealEvents p w dumpPath s)
        uploadFiles := s.uploadFiles } := by
  have hret : (UploadMinidump b w s.uploadFiles).ret = true := hok
  simp [finish, hsilent, askAndUpload, swprintf_s_ok _ _ _ (Nat.le_refl _) hfit, hanswer,
    revealFiles_eq, revealEvents, hret]

/-- After a yes and a failed upload whose message fits, the handler shows the
guidance and goes on. -/
theorem finish_upload_failed (b : Build) (w : World) (dumpPath : String) (p : Paths)
    (succeeded : Bool) (s : Locals) (hsilent : b.gOpenRCT2SilentBreakpad = false)
    (hfit : (consentMessage s.dumpFilePath b.OPENRCT2_VERSION
      b.wszCommitSha1Short).length < MAX_PATH * 2)
    (hanswer : w.answer = IDYES) (hok : w.sendOk = false)
    (hmsg : (uploadFailedMessage w.sendError w.sendResponse).length < MAX_PATH * 2) :
    finish b w dumpPath p succeeded s =
      { ending := .returned succeeded
        trace := s.trace ++
          ([Event.MessageBoxW
            (consentMessage s.dumpFilePath b.OPENRCT2_VERSION b.wszCommitSha1Short)
            b.OPENRCT2_NAME (MB_YESNO ||| MB_ICONERROR)] ++
          (UploadMinidump b w s.uploadFiles).trace ++
          [Event.MessageBoxW (uploadFailedMessage w.sendError w.sendResponse) b.OPENRCT2_NAME
            (MB_OK ||| MB_ICONERROR)] ++
          revealEvents p w dumpPath s)
        uploadFiles := s.uploadFiles } := by
  have hret : (UploadMinidump b w s.uploadFiles).ret = false := hok
  have herr : (UploadMinidump b w s.uploadFiles).error = w.sendError := rfl
  have hresp : (UploadMinidump b w s.uploadFiles).response = w.sendResponse := rfl
  simp [finish, hsilent, askAndUpload, swprintf_s_ok _ _ _ (Nat.le_refl _) hfit, hanswer,
    revealFiles_eq, revealEvents, hret, herr, hresp, swprintf_s_ok _ _ _ (Nat.le_refl _) hmsg]

/-- After a yes and a failed upload whose message does not fit `message`, the
run ends before any result message. -/
theorem finish_result_fault (b : Build) (w : World) (dumpPath : String) (p : Paths)
    (succeeded : Bool) (s : Locals) (hsilent : b.gOpenRCT2SilentBreakpad = false)
    (hfit : (consentMessage s.dumpFilePath b.OPENRCT2_VERSION
      b.wszCommitSha1Short).length < MAX_PATH * 2)
    (hanswer : w.answer = IDYES) (hok : w.sendOk = false)
    (hmsg : ¬ (uploadFailedMessage w.sendError w.sendResponse).length < MAX_PATH * 2) :
    finish b w dumpPath p succeeded s =
      { ending := .faulted Fault.invalidParameter
        trace := s.trace ++
          ([Event.MessageBoxW
            (consentMessage s.dumpFilePath b.OPENRCT2_VERSION b.wszCommitSha1Short)
            b.OPENRCT2_NAME (MB_YESNO ||| MB_ICONERROR)] ++
          (UploadMinidump b w s.uploadFiles).trace)
        uploadFiles := s.uploadFiles } := by
  have hret : (UploadMinidump b w s.uploadFiles).ret = false := hok
  have herr : (UploadMinidump b w s.uploadFiles).error = w.sendError := rfl
  have hresp : (UploadMinidump b w s.uploadFiles).response = w.sendResponse := rfl
  simp [finish, hsilent, askAndUpload, swprintf_s_ok _ _ _ (Nat.le_refl _) hfit, hanswer,
    hret, herr, hresp, swprintf_s_message_error _ hmsg]

/-- Whatever way the last part of the handler ends, it keeps the bundle, only
adds calls, and returns nothing but `succeeded`. -/
theorem finish_shape (b : Build) (w : World) (dumpPath : String) (p : Paths)
    (succeeded : Bool) (s : Locals) :
    ∃ e rest, finish b w dumpPath p succeeded s =
        { ending := e, trace := s.trace ++ rest, uploadFiles := s.uploadFiles } ∧
      (∀ v, e = .returned v → v = succeeded) := by
  by_cases hsilent : b.gOpenRCT2SilentBreakpad = true
  · rw [finish_silent b w dumpPath p succeeded s hsilent]
    exact ⟨_, _, rfl, by simp⟩
  · have hsilent : b.gOpenRCT2SilentBreakpad = false := by simpa using hsilent
    by_cases hfit : (consentMessage s.dumpFilePath b.OPENRCT2_VERSION
      b.wszCommitSha1Short).length < MAX_PATH * 2
    · by_cases hanswer : w.answer = IDYES
      · cases hok : w.sendOk
        · by_cases hmsg : (uploadFailedMessage w.sendError w.sendResponse).length < MAX_PATH * 2
          · rw [finish_upload_failed b w dumpPath p succeeded s hsilent hfit hanswer hok hmsg]
            exact ⟨_, _, rfl, by simp⟩
          · rw [finish_result_fault b w dumpPath p succeeded s hsilent hfit hanswer hok hmsg]
            exact ⟨_, _, rfl, by simp⟩
        · rw [finish_uploaded b w dumpPath p succeeded s hsilent hfit hanswer hok]
          exact ⟨_, _, rfl, by simp⟩
      · rw [finish_declined b w dumpPath p succeeded s hsilent hfit hanswer]
        exact ⟨_, _, rfl, by simp⟩
    · rw [finish_prompt_fault b w dumpPath p succeeded s hsilent hfit]
      exact ⟨Ending.faulted Fault.invalidParameter, [], by simp, by simp⟩

/-! ### The runs of `OnCrash` on the success path -/

/-- A file name that does not fit ends the run before any call. -/
theorem OnCrash_paths_fault (b : Build) (w : World) (dumpPath miniDumpId : String)
    (hfit : ¬ PathsFit b dumpPath miniDumpId) :
    ∃ f, OnCrash b w dumpPath miniDumpId true =
      { ending := .faulted f, trace := [], uploadFiles := [] } := by
  obtain ⟨f, hf⟩ := getFilenames_error b dumpPath miniDumpId hfit
  exact ⟨f, by simp [OnCrash, hf]⟩

/-- A dump stream that does not open ends the run in `fclose`. -/
theorem OnCrash_dump_fault (b : Build) (w : World) (dumpPath miniDumpId : String)
    (hfit : PathsFit b dumpPath miniDumpId) (hdump : ¬ DumpStreamsOpen w) :
    OnCrash b w dumpPath miniDumpId true =
      { ending := .faulted Fault.invalidParameter
        trace :=
          [ Event.wfopen (fileNames b dumpPath miniDumpId).dumpFilePath "rb",
            Event.wfopen (fileNames b dumpPath miniDumpId).dumpFilePathGZIP "wb",
            Event.util_gzip_compress (fileNames b dumpPath miniDumpId).dumpFilePath
              (fileNames b dumpPath miniDumpId).dumpFilePathGZIP ] ++
          (if w.dumpInputOpens then
            [Event.fclose (fileNames b dumpPath miniDumpId).dumpFilePath] else [])
        uploadFiles := [] } := by
  simp [OnCrash, getFilenames_ok b dumpPath miniDumpId hfit,
    collect_dump_fault b w dumpPath miniDumpId _ hdump]

/-- A save stream that does not open ends the run in `fclose`. -/
theorem OnCrash_save_fault (b : Build) (w : World) (dumpPath miniDumpId : String)
    (hfit : PathsFit b dumpPath miniDumpId) (hdump : DumpStreamsOpen w)
    (hsaved : w.exportThrows = false ∧ w.saveGameThrows = false)
    (hsave : ¬ (w.saveInputOpens = true ∧ w.saveDestOpens = true)) :
    OnCrash b w dumpPath miniDumpId true =
      { ending := .faulted Fault.invalidParameter
        trace :=
          dumpEvents (fileNames b dumpPath miniDumpId) ++
          exportEvents b w dumpPath miniDumpId (fileNames b dumpPath miniDumpId) ++
          [ Event.wfopen (fileNames b dumpPath miniDumpId).saveFilePath "rb",
            Event.wfopen (fileNames b dumpPath miniDumpId).saveFilePathGZIP "wb",
            Event.util_gzip_compress (fileNames b dumpPath miniDumpId).saveFilePath
              (fileNames b dumpPath miniDumpId).saveFilePathGZIP ] ++
          (if w.saveInputOpens then
            [Event.fclose (fileNames b dumpPath miniDumpId).saveFilePath] else [])
        uploadFiles :=
          [ if w.gzipSave then
              ("attachment_park.sv6.gz", (fileNames b dumpPath miniDumpId).saveFilePathGZIP)
            else ("attachment_park.sv6", (fileNames b dumpPath miniDumpId).saveFilePath),
            ("upload_file_minidump", dumpFilePathAfterRename b w dumpPath miniDumpId) ] } := by
  simp [OnCrash, getFilenames_ok b dumpPath miniDumpId hfit,
    collect_save_fault b w dumpPath miniDumpId _ hdump hsaved hsave, dumpFilePathAfterRename]

/-- With the file names fitting and the streams open, the run reaches the test
of the silent flag. -/
theorem OnCrash_collected (b : Build) (w : World) (dumpPath miniDumpId : String)
    (hfit : PathsFit b dumpPath miniDumpId) (hopen : StreamsOpen w) :
    OnCrash b w dumpPath miniDumpId true =
      finish b w dumpPath (fileNames b dumpPath miniDumpId) true
        (collected b w dumpPath miniDumpId (fileNames b dumpPath miniDumpId)) := by
  simp [OnCrash, getFilenames_ok b dumpPath miniDumpId hfit,
    collect_ok b w dumpPath miniDumpId _ hopen]

/-- The streams either all open, or a dump stream fails, or the save was
exported and a save stream fails. -/
theorem streams_cases (w : World) :
    StreamsOpen w ∨ ¬ DumpStreamsOpen w ∨
      (DumpStreamsOpen w ∧ (w.exportThrows = false ∧ w.saveGameThrows = false) ∧
        ¬ (w.saveInputOpens = true ∧ w.saveDestOpens = true)) := by
  by_cases hdump : DumpStreamsOpen w
  · by_cases hsaved : w.exportThrows = false ∧ w.saveGameThrows = false
    · by_cases hsave : w.saveInputOpens = true ∧ w.saveDestOpens = true
      · exact Or.inl ⟨hdump, fun _ => hsave⟩
      · exact Or.inr (Or.inr ⟨hdump, hsaved, hsave⟩)
    · exact Or.inl ⟨hdump, fun h => absurd h hsaved⟩
  · exact Or.inr (Or.inl hdump)

/-- The bundle of a run that reached the test of the silent flag. -/
theorem OnCrash_uploadFiles (b : Build) (w : World) (dumpPath miniDumpId : String)
    (hfit : PathsFit b dumpPath miniDumpId) (hopen : StreamsOpen w) :
    (OnCrash b w dumpPath miniDumpId true).uploadFiles =
      collectedFiles w (fileNames b dumpPath miniDumpId) := by
  rw [OnCrash_collected b w dumpPath miniDumpId hfit hopen]
  obtain ⟨e, rest, h, _⟩ := finish_shape b w dumpPath (fileNames b dumpPath miniDumpId) true
    (collected b w dumpPath miniDumpId (fileNames b dumpPath miniDumpId))
  rw [h]
  rfl

/-- Collecting sends no request. -/
theorem collectedTrace_no_request (b : Build) (w : World) (dumpPath miniDumpId : String)
    (p : Paths) :
    (collectedTrace b w dumpPath miniDumpId p).filter Event.isSendRequest = [] := by
  unfold collectedTrace dumpEvents exportEvents
  cases w.exportThrows <;> cases w.saveGameThrows <;> simp [Event.isSendRequest]

/-- Collecting shows no message box. -/
theorem collectedTrace_no_box (b : Build) (w : World) (dumpPath miniDumpId : String)
    (p : Paths) :
    (collectedTrace b w dumpPath miniDumpId p).filter Event.isMessageBox = [] := by
  unfold collectedTrace dumpEvents exportEvents
  cases w.exportThrows <;> cases w.saveGameThrows <;> simp [Event.isMessageBox]

/-- Collecting does not touch the file browser. -/
theorem collectedTrace_no_reveal (b : Build) (w : World) (dumpPath miniDumpId : String)
    (p : Paths) :
    (collectedTrace b w dumpPath miniDumpId p).filter Event.isReveal = [] := by
  unfold collectedTrace dumpEvents exportEvents
  cases w.exportThrows <;> cases w.saveGameThrows <;> simp [Event.isReveal]

/-- A run that ends while collecting shows no message box. -/
theorem OnCrash_fault_no_box (b : Build) (w : World) (dumpPath miniDumpId : String)
    (hstop : ¬ (PathsFit b dumpPath miniDumpId ∧ StreamsOpen w)) :
    (OnCrash b w dumpPath miniDumpId true).trace.filter Event.isMessageBox = [] := by
  by_cases hfit : PathsFit b dumpPath miniDumpId
  · rcases streams_cases w with hopen | hdump | ⟨hdump, hsaved, hsave⟩
    · exact absurd ⟨hfit, hopen⟩ hstop
    · rw [OnCrash_dump_fault b w dumpPath miniDumpId hfit hdump]
      cases w.dumpInputOpens <;> simp [Event.isMessageBox]
    · rw [OnCrash_save_fault b w dumpPath miniDumpId hfit hdump hsaved hsave]
      unfold dumpEvents exportEvents
      cases w.saveInputOpens <;> cases w.exportThrows <;> simp [Event.isMessageBox]
  · obtain ⟨f, hf⟩ := OnCrash_paths_fault b w dumpPath miniDumpId hfit
    rw [hf]
    rfl

/-- The contents of `dumpFilePath` at the test of the silent flag. -/
theorem collected_dumpFilePath (b : Build) (w : World) (dumpPath miniDumpId : String) :
    (collected b w dumpPath miniDumpId (fileNames b dumpPath miniDumpId)).dumpFilePath =
      dumpFilePathAfterRename b w dumpPath miniDumpId := rfl

/-- A run in which the consent prompt is shown reached the test of the silent
flag, and the prompt text fitted `message`. -/
theorem prompt_shown (b : Build) (w : World) (dumpPath miniDumpId : String)
    (hprompt : ∃ text, Event.MessageBoxW text b.OPENRCT2_NAME (MB_YESNO ||| MB_ICONERROR) ∈
      (OnCrash b w dumpPath miniDumpId true).trace)
    (hsilent : b.gOpenRCT2SilentBreakpad = false) :
    PathsFit b dumpPath miniDumpId ∧ StreamsOpen w ∧
      (consentMessage (dumpFilePathAfterRename b w dumpPath miniDumpId) b.OPENRCT2_VERSION
        b.wszCommitSha1Short).length < MAX_PATH * 2 := by
  obtain ⟨text, hmem⟩ := hprompt
  have hbox : Event.MessageBoxW text b.OPENRCT2_NAME (MB_YESNO ||| MB_ICONERROR) ∈
      (OnCrash b w dumpPath miniDumpId true).trace.filter Event.isMessageBox :=
    List.mem_filter.2 ⟨hmem, rfl⟩
  by_cases hgo : PathsFit b dumpPath miniDumpId ∧ StreamsOpen w
  · refine ⟨hgo.1, hgo.2, ?_⟩
    by_contra hfit
    rw [← collected_dumpFilePath] at hfit
    rw [OnCrash_collected b w dumpPath miniDumpId hgo.1 hgo.2,
      finish_prompt_fault b w dumpPath _ true _ hsilent hfit] at hbox
    simp only [collected, collectedTrace_no_box] at hbox
    exact absurd hbox (List.not_mem_nil _)
  · rw [OnCrash_fault_no_box b w dumpPath miniDumpId hgo] at hbox
    exact absurd hbox (List.not_mem_nil _)

/-! ### The claims -/

/-- The scenario "dump succeeds, save export throws, config save succeeds,
screenshot empty, silent mode on" on a release build: the one request carries
the dump and the configuration as files and the two text fields. -/
theorem scenario_silent_two_files :
    (OnCrash releaseBuild
        { sampleWorld with exportThrows := true, screenshotPath := "", renameOk := false }
        "C:\\dumps" "7f3a" true).trace.filter Event.isSendRequest =
      [Event.SendRequest uploadUrl
        [("commit", "OpenRCT2, v0.2.2"), ("product_name", "openrct2")]
        [("attachment_config.ini", "C:\\dumps\\7f3a.ini"),
         ("upload_file_minidump", "C:\\dumps\\7f3a.dmp")]
        10000] := by
  decide

/-- C2: when the dump producer reports failure, `OnCrash` returns `false`, prints
the fixed dump-failed message, shows it in a message box exactly when silent
mode is off, and does nothing else: no artifact collection, no upload request,
no consent prompt and no file-browser reveal. -/
theorem OnCrash_dump_failed (b : Build) (w : World) (dumpPath miniDumpId : String) :
    (OnCrash b w dumpPath miniDumpId false).ending = .returned false ∧
    (OnCrash b w dumpPath miniDumpId false).trace =
      Event.print (DumpFailedMessage ++ "\n") ::
        (if b.gOpenRCT2SilentBreakpad then []
         else [Event.MessageBoxA DumpFailedMessage b.OPENRCT2_NAME (MB_OK ||| MB_ICONERROR)]) ∧
    (OnCrash b w dumpPath miniDumpId false).uploadFiles = [] ∧
    (OnCrash b w dumpPath miniDumpId false).trace.filter Event.isCollect = [] ∧
    (OnCrash b w dumpPath miniDumpId false).trace.filter Event.isSendRequest = [] ∧
    (OnCrash b w dumpPath miniDumpId false).trace.filter Event.isReveal = [] ∧
    (∀ text caption flags,
      Event.MessageBoxW text caption flags ∉ (OnCrash b w dumpPath miniDumpId false).trace) := by
  cases hs : b.gOpenRCT2SilentBreakpad <;>
    simp [OnCrash, hs, Event.isCollect, Event.isSendRequest, Event.isReveal]

/-- C4: in a run on the success path in which the save was exported (`Export`
was called and neither it nor `SaveGame` threw), the bundle holds exactly one
save entry: `attachment_park.sv6.gz` with the path `<dir>\<id>.sv6.gz` when
compressing the save succeeded, `attachment_park.sv6` with the path
`<dir>\<id>.sv6` when it failed; the other save key is absent. -/
theorem OnCrash_save_entry (b : Build) (w : World) (dumpPath miniDumpId : String)
    (hexport : Event.Export ∈ (OnCrash b w dumpPath miniDumpId true).trace)
    (hsaved : w.exportThrows = false ∧ w.saveGameThrows = false) :
    mapFind (OnCrash b w dumpPath miniDumpId true).uploadFiles "attachment_park.sv6.gz" =
      (if w.gzipSave then some (dumpPath ++ "\\" ++ miniDumpId ++ ".sv6.gz") else none) ∧
    mapFind (OnCrash b w dumpPath miniDumpId true).uploadFiles "attachment_park.sv6" =
      (if w.gzipSave then none else some (dumpPath ++ "\\" ++ miniDumpId ++ ".sv6")) ∧
    ("attachment_park.sv6.gz" ∈ mapKeys (OnCrash b w dumpPath miniDumpId true).uploadFiles ↔
      w.gzipSave = true) ∧
    ("attachment_park.sv6" ∈ mapKeys (OnCrash b w dumpPath miniDumpId true).uploadFiles ↔
      w.gzipSave = false) ∧
    ((mapKeys (OnCrash b w dumpPath miniDumpId true).uploadFiles).filter
      (fun k => k = "attachment_park.sv6" ∨ k = "attachment_park.sv6.gz")).length = 1 := by
  by_cases hfit : PathsFit b dumpPath miniDumpId
  swap
  · obtain ⟨f, hf⟩ := OnCrash_paths_fault b w dumpPath miniDumpId hfit
    rw [hf] at hexport
    exact absurd hexport (List.not_mem_nil _)
  by_cases hdump : DumpStreamsOpen w
  swap
  · rw [OnCrash_dump_fault b w dumpPath miniDumpId hfit hdump] at hexport
    cases hdi : w.dumpInputOpens <;> simp [hdi] at hexport
  by_cases hsave : w.saveInputOpens = true ∧ w.saveDestOpens = true
  · rw [OnCrash_uploadFiles b w dumpPath miniDumpId hfit ⟨hdump, fun _ => hsave⟩]
    rcases w with ⟨di, dd, gd, rn, et, st, si, sd, gs, cs, sp, an, so, se, sr, ci, pn⟩
    obtain ⟨h1, h2⟩ := hsaved
    simp only at h1 h2
    subst h1 h2
    by_cases hsp : sp = "" <;> cases gs <;> cases cs <;>
      simp [mapKeys, mapFind, collectedFiles, fileNames, hsp, List.lookup]
  · rw [OnCrash_save_fault b w dumpPath miniDumpId hfit hdump hsaved hsave]
    cases hgs : w.gzipSave <;> simp [mapKeys, mapFind, fileNames, List.lookup]

/-- C4, at a sample input. -/
theorem OnCrash_save_entry_witness :
    Event.Export ∈ (OnCrash sampleBuild sampleWorld "C:\\dumps" "7f3a" true).trace ∧
    (sampleWorld.exportThrows = false ∧ sampleWorld.saveGameThrows = false) ∧
    mapFind (OnCrash sampleBuild sampleWorld "C:\\dumps" "7f3a" true).uploadFiles
      "attachment_park.sv6.gz" = some "C:\\dumps\\7f3a.sv6.gz" ∧
    mapFind (OnCrash sampleBuild sampleWorld "C:\\dumps" "7f3a" true).uploadFiles
      "attachment_park.sv6" = none :=
  ⟨by decide, by decide,
   (OnCrash_save_entry sampleBuild sampleWorld "C:\\dumps" "7f3a" (by decide) (by decide)).1,
   (OnCrash_save_entry sampleBuild sampleWorld "C:\\dumps" "7f3a" (by decide) (by decide)).2.1⟩

/-- C6: in a run on the success path with silent mode off in which the consent
prompt is shown and the answer is anything other than yes, no upload request is
sent, the consent prompt is the only message box, and the file-browser step
still starts right after the prompt: `CoInitialize` is called, followed, when it
succeeds, by the folder selection (if the folder id is not null) and
`CoUninitialize`; then the handler returns. -/
theorem OnCrash_declined (b : Build) (w : World) (dumpPath miniDumpId : String)
    (hsilent : b.gOpenRCT2SilentBreakpad = false)
    (hprompt : ∃ text, Event.MessageBoxW text b.OPENRCT2_NAME (MB_YESNO ||| MB_ICONERROR) ∈
      (OnCrash b w dumpPath miniDumpId true).trace)
    (hanswer : w.answer ≠ IDYES) :
    (OnCrash b w dumpPath miniDumpId true).trace.filter Event.isSendRequest = [] ∧
    (OnCrash b w dumpPath miniDumpId true).trace.filter Event.isMessageBox =
      [Event.MessageBoxW
        (consentMessage
          (if w.renameOk then
            dumpPath ++ "\\" ++ miniDumpId ++ "(" ++ b.wszCommitSha1Short ++ "_" ++
              b.wszArchitecture ++ ").dmp"
           else dumpPath ++ "\\" ++ miniDumpId ++ ".dmp")
          b.OPENRCT2_VERSION b.wszCommitSha1Short)
        b.OPENRCT2_NAME (MB_YESNO ||| MB_ICONERROR)] ∧
    (OnCrash b w dumpPath miniDumpId true).trace.filter Event.isReveal =
      Event.comInit ::
        (if w.coInitOk then
          (if w.pidlNonNull then
            [Event.SHOpenFolderAndSelectItems dumpPath
              ([if w.renameOk then
                  dumpPath ++ "\\" ++ miniDumpId ++ "(" ++ b.wszCommitSha1Short ++ "_" ++
                    b.wszArchitecture ++ ").dmp"
                else dumpPath ++ "\\" ++ miniDumpId ++ ".dmp",
                dumpPath ++ "\\" ++ miniDumpId ++ "(" ++ b.wszCommitSha1Short ++ "_" ++
                  b.wszArchitecture ++ ").dmp" ++ ".gz"] ++
               (if w.exportThrows = false ∧ w.saveGameThrows = false then
                 [dumpPath ++ "\\" ++ miniDumpId ++ ".sv6"]
                else []))]
           else []) ++ [Event.comUninit]
         else []) ∧
    (∃ text pre post,
      (OnCrash b w dumpPath miniDumpId true).trace =
        pre ++ Event.MessageBoxW text b.OPENRCT2_NAME (MB_YESNO ||| MB_ICONERROR) ::
          Event.comInit :: post) ∧
    (OnCrash b w dumpPath miniDumpId true).ending = .returned true := by
  obtain ⟨hfit, hopen, hconsent⟩ := prompt_shown b w dumpPath miniDumpId hprompt hsilent
  rw [← collected_dumpFilePath] at hconsent
  rw [OnCrash_collected b w dumpPath miniDumpId hfit hopen,
    finish_declined b w dumpPath _ true _ hsilent hconsent hanswer]
  refine ⟨?_, ?_, ?_, ?_, rfl⟩
  · simp only [collected, List.filter_append, collectedTrace_no_request, revealEvents]
    cases w.coInitOk <;> cases w.pidlNonNull <;> simp [Event.isSendRequest]
  · simp only [collected, List.filter_append, collectedTrace_no_box, revealEvents]
    cases w.coInitOk <;> cases w.pidlNonNull <;> simp [Event.isMessageBox, fileNames]
  · simp only [collected, List.filter_append, collectedTrace_no_reveal, revealEvents]
    cases w.coInitOk <;> cases w.pidlNonNull <;> by_cases het : w.exportThrows = true <;>
      by_cases hst : w.saveGameThrows = true <;> simp [Event.isReveal, fileNames, het, hst]
  · exact ⟨_, _, _, by simp only [revealEvents, List.append_assoc, List.cons_append,
      List.nil_append]; rfl⟩

/-- C6, at a sample input. -/
theorem OnCrash_declined_witness :
    sampleBuild.gOpenRCT2SilentBreakpad = false ∧
    (∃ text, Event.MessageBoxW text sampleBuild.OPENRCT2_NAME (MB_YESNO ||| MB_ICONERROR) ∈
      (OnCrash sampleBuild decliningWorld "C:\\dumps" "7f3a" true).trace) ∧
    decliningWorld.answer ≠ IDYES ∧
    (OnCrash sampleBuild decliningWorld "C:\\dumps" "7f3a" true).trace.filter
      Event.isSendRequest = [] :=
  ⟨rfl,
   ⟨consentMessage "C:\\dumps\\7f3a(abc1234_x86-64).dmp" "0.2.2" "abc1234", by decide⟩,
   by decide,
   (OnCrash_declined sampleBuild decliningWorld "C:\\dumps" "7f3a" rfl
     ⟨consentMessage "C:\\dumps\\7f3a(abc1234_x86-64).dmp" "0.2.2" "abc1234", by decide⟩
     (by decide)).1⟩

/-- C7: whatever bundle `UploadMinidump` is given, the one request it sends
carries exactly two text fields, `product_name` with the value `openrct2` and
`commit`, which is the short commit hash when that is not empty and the full
version string otherwise; `commit` is not empty when the full version string
is not empty. -/
theorem UploadMinidump_text_fields (b : Build) (w : World) (files : WMap) :
    (UploadMinidump b w files).trace.filter Event.isSendRequest =
      [Event.SendRequest uploadUrl
        [("commit",
          if b.wszCommitSha1Short = "" then b.gVersionInfoFull else b.wszCommitSha1Short),
         ("product_name", "openrct2")]
        files 10000] ∧
    mapKeys (uploadParameters b) = ["commit", "product_name"] ∧
    mapFind (uploadParameters b) "product_name" = some "openrct2" ∧
    mapFind (uploadParameters b) "commit" =
      some (if b.wszCommitSha1Short = "" then b.gVersionInfoFull else b.wszCommitSha1Short) ∧
    (b.gVersionInfoFull ≠ "" → mapFind (uploadParameters b) "commit" ≠ some "") := by
  rw [UploadMinidump_one_request, uploadParameters_eq]
  refine ⟨rfl, rfl, ?_, ?_, ?_⟩
  · simp [mapFind, List.lookup]
  · simp [mapFind, List.lookup]
  · intro hfull
    by_cases h : b.wszCommitSha1Short = ""
    · simpa [mapFind, List.lookup, h] using hfull
    · simp [mapFind, List.lookup, h]

/-- C7, at a release build. -/
theorem UploadMinidump_text_fields_witness :
    releaseBuild.gVersionInfoFull ≠ "" ∧
    mapFind (uploadParameters releaseBuild) "commit" = some "OpenRCT2, v0.2.2" ∧
    mapFind (uploadParameters releaseBuild) "commit" ≠ some "" :=
  ⟨by decide,
   (UploadMinidump_text_fields releaseBuild sampleWorld []).2.2.2.1,
   (UploadMinidump_text_fields releaseBuild sampleWorld []).2.2.2.2 (by decide)⟩

/-- C10 as stated fails: with a successful rename the first compression reads
`C:\dumps\7f3a.dmp`, not the renamed dump, and it is called before the rename. -/
theorem OnCrash_compress_reads_original :
    sampleWorld.renameOk = true ∧
    (gzipInputs (OnCrash sampleBuild sampleWorld "C:\\dumps" "7f3a" true).trace).head? =
      some "C:\\dumps\\7f3a.dmp" ∧
    (gzipInputs (OnCrash sampleBuild sampleWorld "C:\\dumps" "7f3a" true).trace).head? ≠
      some "C:\\dumps\\7f3a(abc1234_x86-64).dmp" ∧
    ¬ ((OnCrash sampleBuild sampleWorld "C:\\dumps" "7f3a" true).trace.findIdx Event.isRename <
      (OnCrash sampleBuild sampleWorld "C:\\dumps" "7f3a" true).trace.findIdx Event.isGzip) := by
  decide

/-- The calls of every run in which the file names fit and the dump streams
open start with the compression of the dump and the calls up to the export. -/
theorem OnCrash_trace_start (b : Build) (w : World) (dumpPath miniDumpId : String)
    (hfit : PathsFit b dumpPath miniDumpId) (hdump : DumpStreamsOpen w) :
    ∃ rest, (OnCrash b w dumpPath miniDumpId true).trace =
      dumpEvents (fileNames b dumpPath miniDumpId) ++
        (exportEvents b w dumpPath miniDumpId (fileNames b dumpPath miniDumpId) ++ rest) := by
  rcases streams_cases w with hopen | hndump | ⟨_, hsaved, hsave⟩
  · rw [OnCrash_collected b w dumpPath miniDumpId hfit hopen]
    obtain ⟨e, rest, h, _⟩ := finish_shape b w dumpPath (fileNames b dumpPath miniDumpId) true
      (collected b w dumpPath miniDumpId (fileNames b dumpPath miniDumpId))
    rw [h]
    exact ⟨_, by simp only [collected, collectedTrace, List.append_assoc]; rfl⟩
  · exact absurd hdump hndump
  · rw [OnCrash_save_fault b w dumpPath miniDumpId hfit hdump hsaved hsave]
    exact ⟨_, by simp only [List.append_assoc]; rfl⟩

/-- C10, amended: on the success path, when every file name fits its array and
both dump streams open, the dump is compressed before it is renamed; the
compression reads the original `<dir>\<id>.dmp` and writes
`<dir>\<id>(<commit>_<arch>).dmp.gz` whatever the rename will answer, and the
rename of `<dir>\<id>.dmp` to `<dir>\<id>(<commit>_<arch>).dmp` is the next call
after the two streams are closed. -/
theorem OnCrash_compress_then_rename (b : Build) (w : World) (dumpPath miniDumpId : String)
    (hfit : PathsFit b dumpPath miniDumpId) (hdump : DumpStreamsOpen w) :
    (OnCrash b w dumpPath miniDumpId true).trace.take 6 =
      [ Event.wfopen (dumpPath ++ "\\" ++ miniDumpId ++ ".dmp") "rb",
        Event.wfopen (dumpPath ++ "\\" ++ miniDumpId ++ "(" ++ b.wszCommitSha1Short ++ "_" ++
          b.wszArchitecture ++ ").dmp" ++ ".gz") "wb",
        Event.util_gzip_compress (dumpPath ++ "\\" ++ miniDumpId ++ ".dmp")
          (dumpPath ++ "\\" ++ miniDumpId ++ "(" ++ b.wszCommitSha1Short ++ "_" ++
            b.wszArchitecture ++ ").dmp" ++ ".gz"),
        Event.fclose (dumpPath ++ "\\" ++ miniDumpId ++ ".dmp"),
        Event.fclose (dumpPath ++ "\\" ++ miniDumpId ++ "(" ++ b.wszCommitSha1Short ++ "_" ++
          b.wszArchitecture ++ ").dmp" ++ ".gz"),
        Event.wrename (dumpPath ++ "\\" ++ miniDumpId ++ ".dmp")
          (dumpPath ++ "\\" ++ miniDumpId ++ "(" ++ b.wszCommitSha1Short ++ "_" ++
            b.wszArchitecture ++ ").dmp") ] ∧
    (gzipInputs (OnCrash b w dumpPath miniDumpId true).trace).head? =
      some (dumpPath ++ "\\" ++ miniDumpId ++ ".dmp") ∧
    (OnCrash b w dumpPath miniDumpId true).trace.findIdx Event.isGzip = 2 ∧
    (OnCrash b w dumpPath miniDumpId true).trace.findIdx Event.isRename = 5 := by
  obtain ⟨rest, h⟩ := OnCrash_trace_start b w dumpPath miniDumpId hfit hdump
  rw [h]
  simp [dumpEvents, exportEvents, fileNames, gzipInputs, List.findIdx_cons, Event.isGzip,
    Event.isRename]

/-- C10, amended, at a sample input. -/
theorem OnCrash_compress_then_rename_witness :
    PathsFit sampleBuild "C:\\dumps" "7f3a" ∧ DumpStreamsOpen sampleWorld ∧
    (OnCrash sampleBuild sampleWorld "C:\\dumps" "7f3a" true).trace.findIdx Event.isGzip = 2 ∧
    (OnCrash sampleBuild sampleWorld "C:\\dumps" "7f3a" true).trace.findIdx Event.isRename = 5 :=
  ⟨by decide, by decide,
   (OnCrash_compress_then_rename sampleBuild sampleWorld "C:\\dumps" "7f3a" (by decide)
     (by decide)).2.2.1,
   (OnCrash_compress_then_rename sampleBuild sampleWorld "C:\\dumps" "7f3a" (by decide)
     (by decide)).2.2.2⟩


end Crash
